import Mathlib

/-!
Verification of the data-analysis pipeline of the DataAnalyst-Dicoding
dashboard, a shallow embedding of `dashboard/dashboard.py` and
`dashboard/sub_dashboard.py`.

Conventions of the embedding:
* a dataframe is a `List` of records, in row order;
* a pandas `NaN`/`NaT` cell is `Option.none`;
* monetary values are `Rat` (the claims are about exact arithmetic
  identities, not floating-point rounding);
* timestamps are `Int` (a point on a discrete time line); the date filter
  only compares them, so the unit is irrelevant;
* a pandas operation that raises on some input is embedded as a function
  returning `Option`, with `none` on exactly the raising inputs.

The helper module `helper.py` (`HelperDataAnalyzer`, `BrazilMapping`) is
imported by both scripts but is not part of the sources; its operations
are modelled from the specification where needed, and each such
definition says so in its doc comment.
-/

namespace Dashboard

/-! ## Definitions -/

/-- Price-category labels produced by the binning step
(`Murah`/`Sedang`/`Mahal` in dashboard.py, `Cheap`/`Mid`/`Expensive` in
sub_dashboard.py; the two scripts differ only in the label strings). -/
inductive PriceCategory where
  | Cheap
  | Mid
  | Expensive
deriving DecidableEq, Repr

/-- One row of the joined order dataset (`df.csv`), restricted to the
columns the dashboards use.  After the preparation step
(`all_df['order_approved_at'] = pd.to_datetime(...)`,
`all_df['payment_value'] = all_df['payment_value'].fillna(0)`):
`order_approved_at` may be `NaT` (here `none`), `payment_value` is total,
`price`, `product_category_name_english` and `review_score` may be `NaN`
(here `none`).  `price_category` models the derived column written by the
enrichment step; it is absent (`none`) in the loaded data. -/
structure OrderLineRecord where
  order_id : String
  customer_unique_id : String
  customer_state : String
  order_approved_at : Option Int
  payment_value : Rat
  price : Option Rat
  product_category_name_english : Option String
  order_status : String
  review_score : Option Nat
  price_category : Option PriceCategory := none
deriving DecidableEq, Repr

/-- The date-range filter, dashboard.py lines 36-37 (identically
sub_dashboard.py lines 35-36):
`all_df[(all_df['order_approved_at'] >= start) & (all_df['order_approved_at'] <= end)]`.
A `NaT` timestamp compares `False` against any bound in pandas, so a row
with an absent `order_approved_at` fails the mask. -/
def filtered_df (all_df : List OrderLineRecord) (s e : Int) :
    List OrderLineRecord :=
  all_df.filter fun r =>
    match r.order_approved_at with
    | some t => decide (s ≤ t) && decide (t ≤ e)
    | none => false

/-- The index of a `groupby`: the distinct values of `l`, ascending. -/
def sortedKeys {κ : Type} [DecidableEq κ] [LinearOrder κ] (l : List κ) : List κ :=
  List.insertionSort (· ≤ ·) l.dedup

/-- A derived table: one row per distinct key of `l`, ascending, with the
metric computed by `f`. -/
def keyTable {κ : Type} [DecidableEq κ] [LinearOrder κ] {β : Type} (l : List κ) (f : κ → β) :
    List (κ × β) :=
  (sortedKeys l).map fun k => (k, f k)

/-- Counting table, `l.value_counts()` reindexed ascending or
`groupby(k).size()`: the
occurrence count of each distinct value. -/
def countBy {κ : Type} [DecidableEq κ] [LinearOrder κ] (l : List κ) : List (κ × Nat) :=
  keyTable l fun k => l.count k

/-- The count-descending ordering the spec prescribes for the helper's
order-item table: a stable sort, so tied rows keep the grouping-key
order.  This is part of the spec-modelled helper, not an embedding of
any in-source `sort_values` call. -/
def sortDescByCount {κ : Type} (t : List (κ × Nat)) : List (κ × Nat) :=
  List.insertionSort (fun a b => b.2 ≤ a.2) t

/-- The stable count-ascending sort the CLAIM asserts for the
fewest-sold view (ties in the existing row order).  It is a claim-side
definition: the in-source `sort_values` call at sub_dashboard.py line
141 is embedded separately as the relation `IsSortValuesAsc`, because
pandas' default `kind='quicksort'` does not guarantee stability. -/
def sortAscByCount {κ : Type} (t : List (κ × Nat)) : List (κ × Nat) :=
  List.insertionSort (fun a b => a.2 ≤ b.2) t

/-- Instance: the by-count comparison is total. -/
instance instByCountTotal {κ : Type} :
    IsTotal (κ × Nat) fun a b => a.2 ≤ b.2 :=
  ⟨fun a b => Nat.le_total a.2 b.2⟩

/-- Instance: the by-count comparison is transitive. -/
instance instByCountTrans {κ : Type} :
    IsTrans (κ × Nat) fun a b => a.2 ≤ b.2 :=
  ⟨fun _ _ _ => Nat.le_trans⟩

/-- The calendar date of a timestamp: its (floor) day index. -/
def dateOf (t : Int) : Int := Int.fdiv t 86400

/-- The approval date of a record, absent when the timestamp is. -/
def approvedDate (r : OrderLineRecord) : Option Int :=
  (r.order_approved_at).map dateOf

/-- Modelled from the spec: `HelperDataAnalyzer.create_daily_orders_df`
(helper.py, missing from the sources).  Spec §4.2: group by the calendar
date of `order_approved_at` (absent keys excluded); the metrics are the
order count and the `payment_value` sum of that day. -/
def create_daily_orders_df (records : List OrderLineRecord) :
    List (Int × Nat × Rat) :=
  keyTable (records.filterMap approvedDate) fun d =>
    ((records.filter fun r => decide (approvedDate r = some d)).length,
     ((records.filter fun r => decide (approvedDate r = some d)).map
       (·.payment_value)).sum)

/-- The `payment_value` column of one customer's rows. -/
def customerPayments (records : List OrderLineRecord) (c : String) :
    List Rat :=
  (records.filter fun r => decide (r.customer_unique_id = c)).map
    (·.payment_value)

/-- Modelled from the spec: `HelperDataAnalyzer.create_sum_spend_df`
(helper.py, missing from the sources).  Spec §4.2: per
`customer_unique_id`, the sum, mean and count of `payment_value`. -/
def create_sum_spend_df (records : List OrderLineRecord) :
    List (String × Rat × Rat × Nat) :=
  keyTable (records.map (·.customer_unique_id)) fun c =>
    ((customerPayments records c).sum,
     (customerPayments records c).sum / ((customerPayments records c).length : Rat),
     (customerPayments records c).length)

/-- The order-item count table: line items grouped by
`product_category_name_english` (rows with an absent category are
excluded), counted, keys ascending. -/
def order_item_counts (records : List OrderLineRecord) :
    List (String × Nat) :=
  countBy (records.filterMap (·.product_category_name_english))

/-- Modelled from the spec: `HelperDataAnalyzer.create_sum_order_items_df`
(helper.py, missing from the sources).  Spec §4.2/§4.2-notes: the
order-item count table, returned sorted by count descending — both
dashboards read their "most sold" top-5 straight off its first rows
(dashboard.py line 75, sub_dashboard.py lines 51 and 128) — with ties
left in grouping-key order by sort stability. -/
def create_sum_order_items_df (records : List OrderLineRecord) :
    List (String × Nat) :=
  sortDescByCount (order_item_counts records)

/-- The review-score distribution (`review_scores` in both dashboards):
review counts grouped by `review_score`, absent scores excluded. -/
def review_scores (records : List OrderLineRecord) : List (Nat × Nat) :=
  countBy (records.filterMap (·.review_score))

/-- The per-state customer table (`bystate_df`): the number of distinct
`customer_unique_id` values per `customer_state`. -/
def bystate_df (records : List OrderLineRecord) : List (String × Nat) :=
  keyTable (records.map (·.customer_state)) fun st =>
    (((records.filter fun r => decide (r.customer_state = st)).map
      (·.customer_unique_id)).dedup).length

/-- The order-status count table (`order_status_df`). -/
def order_status_df (records : List OrderLineRecord) : List (String × Nat) :=
  countBy (records.map (·.order_status))

/-- Tail of `specSelect`: the row so far preferred, then the rest of the
table; a later row replaces the current one iff it is strictly earlier
in the (descending metric, ascending key) order. -/
def specSelectGo {κ : Type} [DecidableEq κ] [LinearOrder κ] (best : κ × Nat) :
    List (κ × Nat) → κ
  | [] => best.1
  | p :: ps =>
    if best.2 < p.2 ∨ (best.2 = p.2 ∧ p.1 < best.1) then specSelectGo p ps
    else specSelectGo best ps

/-- The spec's canonical "most common" rule (§4.2/§4.3): the key that
appears first when the table's rows are ordered by (descending metric,
ascending key) — computed as the least row of the table under that
order.  On an empty table it is the spec's absent sentinel `none`. -/
def specSelect {κ : Type} [DecidableEq κ] [LinearOrder κ] : List (κ × Nat) → Option κ
  | [] => none
  | x :: xs => some (specSelectGo x xs)

/-- Tail of `idxmax`: keeps the earlier row unless a later one is
strictly greater. -/
def idxmaxGo {κ : Type} (best : κ × Nat) : List (κ × Nat) → κ
  | [] => best.1
  | p :: ps => if best.2 < p.2 then idxmaxGo p ps else idxmaxGo best ps

/-- pandas `Series.idxmax` on a (key, value) table whose index is the
key column: the key of the first row attaining the maximal value.
`none` models the `ValueError` pandas raises on an empty series. -/
def idxmax {κ : Type} : List (κ × Nat) → Option κ
  | [] => none
  | x :: xs => some (idxmaxGo x xs)

/-- Modelled from the spec: `HelperDataAnalyzer.review_score_df`
(helper.py, missing from the sources) returns the distribution table and
its "most common" scalar, chosen by the canonical rule of §4.3 with the
absent sentinel on an empty table. -/
def review_score_df (records : List OrderLineRecord) :
    List (Nat × Nat) × Option Nat :=
  (review_scores records, specSelect (review_scores records))

/-- Modelled from the spec: `HelperDataAnalyzer.create_bystate_df`
(helper.py, missing from the sources): the per-state table and its
"most common" scalar per §4.3. -/
def create_bystate_df (records : List OrderLineRecord) :
    List (String × Nat) × Option String :=
  (bystate_df records, specSelect (bystate_df records))

/-- Modelled from the spec: `HelperDataAnalyzer.create_order_status`
(helper.py, missing from the sources): the status counts and their
"most common" scalar per §4.3. -/
def create_order_status (records : List OrderLineRecord) :
    List (String × Nat) × Option String :=
  (order_status_df records, specSelect (order_status_df records))

/-- sub_dashboard.py line 165, the recomputed surface:
`most_common_review_score = review_scores.idxmax()`. -/
def most_common_review_score (records : List OrderLineRecord) :
    Option Nat :=
  idxmax (review_scores records)

/-- sub_dashboard.py line 194, the recomputed surface of the Customer
Demographic tab:
`bystate_df.loc[bystate_df['customer_count'].idxmax(), 'customer_state']`. -/
def most_common_state_demographic (records : List OrderLineRecord) :
    Option String :=
  idxmax (bystate_df records)

/-- The per-customer spend series,
`filtered_df.groupby('customer_unique_id')['payment_value'].sum()`. -/
def customer_sums (records : List OrderLineRecord) : List (String × Rat) :=
  keyTable (records.map (·.customer_unique_id)) fun c =>
    (customerPayments records c).sum

/-- dashboard.py lines 51-52 / sub_dashboard.py lines 90-91, guarded by
`if not filtered_df.empty`:
`average_spending = filtered_df.groupby('customer_unique_id')['payment_value'].sum().mean()`.
`none` is the guarded-out empty case. -/
def average_spending (records : List OrderLineRecord) : Option Rat :=
  match records with
  | [] => none
  | _ :: _ =>
    some (((customer_sums records).map (·.2)).sum /
      ((customer_sums records).length : Rat))

/-- The spec's stated computation (§4.2 notes): the arithmetic mean,
over the distinct `customer_unique_id` values of the filtered set, of
the per-customer `payment_value` sums. -/
def meanOfPerCustomerSums (records : List OrderLineRecord) : Rat :=
  ((((records.map (·.customer_unique_id)).dedup).map fun c =>
    (customerPayments records c).sum).sum) /
    (((records.map (·.customer_unique_id)).dedup).length : Rat)

/-- The line-item mean the spec distinguishes the metric from. -/
def lineItemMean (records : List OrderLineRecord) : Rat :=
  ((records.map (·.payment_value)).sum) / ((records.length : Nat) : Rat)

/-- Record with only the customer id and the payment populated. -/
def mkSpendRecord (cid : String) (v : Rat) : OrderLineRecord :=
  { order_id := cid, customer_unique_id := cid, customer_state := "SP",
    order_approved_at := some 0, payment_value := v, price := none,
    product_category_name_english := none, order_status := "delivered",
    review_score := none }

/-- The spec's example: customer A pays 10 and 30, customer B pays 20. -/
def spendExample : List OrderLineRecord :=
  [mkSpendRecord "A" 10, mkSpendRecord "A" 30, mkSpendRecord "B" 20]

/-- A record with only the state and the customer id populated. -/
def mkStateRecord (st cid : String) : OrderLineRecord :=
  { order_id := cid, customer_unique_id := cid, customer_state := st,
    order_approved_at := some 0, payment_value := 0, price := none,
    product_category_name_english := none, order_status := "delivered",
    review_score := none }

/-- The spec's tie example: five distinct customers in SP and five in
RJ, so the state counts are `{SP: 5, RJ: 5}`. -/
def tieExample : List OrderLineRecord :=
  [mkStateRecord "SP" "a1", mkStateRecord "SP" "a2", mkStateRecord "SP" "a3",
   mkStateRecord "SP" "a4", mkStateRecord "SP" "a5",
   mkStateRecord "RJ" "b1", mkStateRecord "RJ" "b2", mkStateRecord "RJ" "b3",
   mkStateRecord "RJ" "b4", mkStateRecord "RJ" "b5"]

/-- Bin ceiling `filtered_df['price'].max()`: the maximal present price
(pandas `max` skips `NaN`); `none` embeds the `NaN` result on an empty
or all-`NaN` price column. -/
def maxPrice (records : List OrderLineRecord) : Option Rat :=
  match records.filterMap (·.price) with
  | [] => none
  | p :: ps => some (ps.foldl max p)

/-- The bin of one value among VALID edges `[0, 50, 100, maxP]` (so
`100 < maxP`); pandas' default `right=True` makes the bins right-closed
and left-open: `(0, 50]`, `(50, 100]`, `(100, maxP]`; a value in no bin
gets no label.  This is only the interval arithmetic of one row; the
`ValueError` `pd.cut` raises on invalid edges is modelled in
`cut_prices`, which is the only caller. -/
def priceCut (maxP p : Rat) : Option PriceCategory :=
  if 0 < p ∧ p ≤ 50 then some PriceCategory.Cheap
  else if 50 < p ∧ p ≤ 100 then some PriceCategory.Mid
  else if 100 < p ∧ p ≤ maxP then some PriceCategory.Expensive
  else none

/-- The label of one row in a successful cut with ceiling `m`: an absent
price gets no label. -/
def priceLabel (m : Rat) (r : OrderLineRecord) : Option PriceCategory :=
  match r.price with
  | none => none
  | some p => priceCut m p

/-- The whole call
`pd.cut(filtered_df['price'], bins=[0, 50, 100, max], labels=[...])`
(dashboard.py lines 82-86, sub_dashboard.py lines 57-61).  The outer
`none` embeds the `ValueError` pandas raises when the edges
`[0, 50, 100, max]` do not increase strictly: when the max is at most
100 (a non-monotonic or duplicate edge) or when it is `NaN` (no present
price).  On success: one optional label per row, in row order. -/
def cut_prices (records : List OrderLineRecord) :
    Option (List (Option PriceCategory)) :=
  match maxPrice records with
  | none => none
  | some m =>
    if 100 < m then some (records.map (priceLabel m)) else none

/-- One bucket of
`filtered_df.groupby('price_category')['payment_value'].sum()` after a
successful cut with ceiling `m`: the rows labelled `c`.  pandas
`groupby` drops rows whose key is `NaN`. -/
def profitBucket (m : Rat) (records : List OrderLineRecord)
    (c : PriceCategory) : List OrderLineRecord :=
  records.filter fun r => decide (priceLabel m r = some c)

/-- A record with only the price populated. -/
def mkPriceRecord (oid : String) (p : Rat) : OrderLineRecord :=
  { order_id := oid, customer_unique_id := oid, customer_state := "SP",
    order_approved_at := some 0, payment_value := 0, price := some p,
    product_category_name_english := none, order_status := "delivered",
    review_score := none }

/-- Records with prices 50, 100 and 200. -/
def priceExample : List OrderLineRecord :=
  [mkPriceRecord "p1" 50, mkPriceRecord "p2" 100, mkPriceRecord "p3" 200]

/-- The module-level dataframe state of one dashboard run: the canonical
source table `all_df` and the shared filtered table `filtered_df`. -/
structure PipelineState where
  all_df : List OrderLineRecord
  filtered_df : List OrderLineRecord
deriving DecidableEq, Repr

/-- The enrichment step
`filtered_df['price_category'] = pd.cut(filtered_df['price'], ...)`
(dashboard.py lines 82-86, sub_dashboard.py lines 57-61): when the cut
succeeds, pandas writes the new column into the existing `filtered_df`
object in place (the boolean-mask filter produced `filtered_df` as a
copy, so `all_df` is not touched); when `pd.cut` raises — the outer
`none` of `cut_prices` — the exception propagates out of the unguarded
assignment and nothing is written. -/
def priceCategoryStep (st : PipelineState) : Option PipelineState :=
  match cut_prices st.filtered_df with
  | none => none
  | some labels =>
    let enriched := List.zipWith
      (fun r lbl => { r with price_category := lbl }) st.filtered_df labels
    some { st with filtered_df := enriched }

/-- Forget the derived column. -/
def stripPriceCategory (r : OrderLineRecord) : OrderLineRecord :=
  { r with price_category := none }

/-- A state whose shared filtered table holds the priced records (their
maximal price, 200, makes the bin edges valid). -/
def mutationState : PipelineState :=
  { all_df := priceExample, filtered_df := priceExample }

/-- Records whose present prices (30 and 80) are all at most 100, so
the bin edges `[0, 50, 100, 80]` do not increase strictly. -/
def lowPriceExample : List OrderLineRecord :=
  [mkPriceRecord "q1" 30, mkPriceRecord "q2" 80]

/-- The rational 49.99, in reduced constructor form so that the kernel
can evaluate comparisons on it. -/
def p4999 : Rat := ⟨4999, 100, by decide, by decide⟩

/-- Records with prices 49.99 and 200: a valid cut whose first record
falls in the first bin. -/
def priceWitnessExample : List OrderLineRecord :=
  [mkPriceRecord "w" p4999, mkPriceRecord "p3" 200]

/-- sub_dashboard.py lines 50-51 and line 128 (dashboard.py line 75):
the "most sold" view is the first five rows of `sum_order_items_df`
exactly as the helper returns it. -/
def most_sold_view (records : List OrderLineRecord) : List (String × Nat) :=
  (create_sum_order_items_df records).take 5

/-- sub_dashboard.py line 141,
`sum_order_items_df.sort_values(by="product_count", ascending=True)`:
pandas' default `kind='quicksort'` is documented as NOT stable, so the
program fixes only that the result is a permutation of the input sorted
by count ascending; which permutation — in particular the relative
order of tied rows — is not specified.  `IsSortValuesAsc t out` holds
of every admissible result `out`. -/
def IsSortValuesAsc {κ : Type} (t out : List (κ × Nat)) : Prop :=
  List.Perm out t ∧ out.Pairwise fun a b => a.2 ≤ b.2

/-- The admissible "fewest sold" views: the first five rows of some
admissible result of the unstable ascending sort at sub_dashboard.py
line 141. -/
def IsFewestSoldView (records : List OrderLineRecord)
    (v : List (String × Nat)) : Prop :=
  ∃ out, IsSortValuesAsc (create_sum_order_items_df records) out ∧
    v = List.take 5 out

/-- A record with only the product category populated. -/
def mkItemRecord (oid cat : String) : OrderLineRecord :=
  { order_id := oid, customer_unique_id := oid, customer_state := "SP",
    order_approved_at := some 0, payment_value := 0, price := none,
    product_category_name_english := some cat, order_status := "delivered",
    review_score := none }

/-- Two order items in two distinct categories: the count table has the
tied rows `[(a, 1), (b, 1)]`. -/
def soldTieExample : List OrderLineRecord :=
  [mkItemRecord "o1" "a", mkItemRecord "o2" "b"]

/-- One geolocation sample (`geolocation.csv`): the `zip_code_prefix`
column (field `zip_code` here) and the coordinates. -/
structure GeoPoint where
  zip_code : Nat
  latitude : Rat
  longitude : Rat
deriving DecidableEq, Repr

/-- The latitudes of the samples sharing one prefix. -/
def prefixLats (pts : List GeoPoint) (z : Nat) : List Rat :=
  (pts.filter fun g => decide (g.zip_code = z)).map (·.latitude)

/-- The longitudes of the samples sharing one prefix. -/
def prefixLons (pts : List GeoPoint) (z : Nat) : List Rat :=
  (pts.filter fun g => decide (g.zip_code = z)).map (·.longitude)

/-- Modelled from the spec: the coordinate resolution of `BrazilMapping`
(helper.py, missing from the sources; dashboard.py line 173 only passes
it the geolocation table and presentation dependencies).  Spec §4.4
fixes the policy: each distinct `zip_code_prefix` maps to one
representative point, the arithmetic mean (centroid) of the latitudes
and longitudes of all samples sharing that prefix. -/
def BrazilMapping (pts : List GeoPoint) : List (Nat × Rat × Rat) :=
  ((pts.map (·.zip_code)).dedup).map fun z =>
    (z, (prefixLats pts z).sum / ((prefixLats pts z).length : Rat),
        (prefixLons pts z).sum / ((prefixLons pts z).length : Rat))

/-- The spec's example: three samples for prefix 01310 with latitudes
-23.55, -23.56 and -23.54. -/
def geoExample : List GeoPoint :=
  [{ zip_code := 1310, latitude := -2355/100, longitude := -4665/100 },
   { zip_code := 1310, latitude := -2356/100, longitude := -4666/100 },
   { zip_code := 1310, latitude := -2354/100, longitude := -4664/100 }]

/-- A one-row concrete dataset used to instantiate the theorems that have
hypotheses. -/
def oneRowExample : List OrderLineRecord :=
  [{ order_id := "o1", customer_unique_id := "c1", customer_state := "SP",
     order_approved_at := some 4, payment_value := 10, price := none,
     product_category_name_english := none, order_status := "delivered",
     review_score := none }]

/-! ## Theorems -/

/-- C1: a record appears in `filter(records, start, end)` iff its
`order_approved_at` is present and `start ≤ order_approved_at ≤ end`;
every record with an absent approval timestamp is excluded. -/
theorem mem_filtered_df_iff (all_df : List OrderLineRecord) (s e : Int)
    (r : OrderLineRecord) :
    r ∈ filtered_df all_df s e ↔
      r ∈ all_df ∧ ∃ t, r.order_approved_at = some t ∧ s ≤ t ∧ t ≤ e := by
  unfold filtered_df
  rw [List.mem_filter]
  constructor
  · rintro ⟨hmem, hp⟩
    refine ⟨hmem, ?_⟩
    cases h : r.order_approved_at with
    | none => rw [h] at hp; simp at hp
    | some t =>
      rw [h] at hp
      simp only [Bool.and_eq_true, decide_eq_true_eq] at hp
      exact ⟨t, rfl, hp.1, hp.2⟩
  · rintro ⟨hmem, t, ht, h1, h2⟩
    refine ⟨hmem, ?_⟩
    rw [ht]
    simp [h1, h2]

/-- C7: a degenerate range — `start > end`, or a range disjoint from
every present timestamp — yields the empty filtered set.  The filter is a
total function, so no error is possible. -/
theorem filtered_df_degenerate_range (all_df : List OrderLineRecord)
    (s e : Int)
    (h : e < s ∨ ∀ r ∈ all_df, ∀ t, r.order_approved_at = some t →
      t < s ∨ e < t) :
    filtered_df all_df s e = [] := by
  unfold filtered_df
  rw [List.filter_eq_nil_iff]
  intro r hr
  cases ht : r.order_approved_at with
  | none => simp
  | some t =>
    simp only [Bool.and_eq_true, decide_eq_true_eq, not_and]
    intro hs
    rcases h with h | h
    · omega
    · rcases h r hr t ht with h2 | h2 <;> omega

theorem sortedKeys_perm {κ : Type} [DecidableEq κ] [LinearOrder κ] (l : List κ) :
    List.Perm (sortedKeys l) l.dedup :=
  List.perm_insertionSort _ _

theorem mem_sortedKeys {κ : Type} [DecidableEq κ] [LinearOrder κ] {l : List κ} {a : κ} :
    a ∈ sortedKeys l ↔ a ∈ l := by
  rw [(sortedKeys_perm l).mem_iff, List.mem_dedup]

theorem sortedKeys_nodup {κ : Type} [DecidableEq κ] [LinearOrder κ] (l : List κ) :
    (sortedKeys l).Nodup :=
  ((sortedKeys_perm l).nodup_iff).mpr (List.nodup_dedup l)

theorem sortedKeys_sorted {κ : Type} [DecidableEq κ] [LinearOrder κ] (l : List κ) :
    List.Sorted (· ≤ ·) (sortedKeys l) :=
  List.sorted_insertionSort _ _

theorem sortedKeys_pairwise_lt {κ : Type} [DecidableEq κ] [LinearOrder κ] (l : List κ) :
    (sortedKeys l).Pairwise (· < ·) :=
  ((sortedKeys_sorted l).and (sortedKeys_nodup l)).imp
    fun h => lt_of_le_of_ne h.1 h.2

theorem keyTable_pairwise_lt {κ : Type} [DecidableEq κ] [LinearOrder κ] {β : Type}
    (l : List κ) (f : κ → β) :
    (keyTable l f).Pairwise fun a b => a.1 < b.1 := by
  unfold keyTable
  rw [List.pairwise_map]
  exact sortedKeys_pairwise_lt l

theorem idxmaxGo_eq_specSelectGo {κ : Type} [DecidableEq κ] [LinearOrder κ]
    (best : κ × Nat) (l : List (κ × Nat))
    (hb : ∀ p ∈ l, best.1 < p.1)
    (hl : l.Pairwise fun a b => a.1 < b.1) :
    idxmaxGo best l = specSelectGo best l := by
  induction l generalizing best with
  | nil => rfl
  | cons p ps ih =>
    have hbp : best.1 < p.1 := hb p (List.mem_cons_self p ps)
    rw [idxmaxGo, specSelectGo]
    rcases List.pairwise_cons.mp hl with ⟨hp, hps⟩
    by_cases h : best.2 < p.2
    · rw [if_pos h, if_pos (Or.inl h)]
      exact ih p hp hps
    · have hcond : ¬(best.2 < p.2 ∨ (best.2 = p.2 ∧ p.1 < best.1)) := by
        rintro (h1 | ⟨-, h2⟩)
        · exact h h1
        · exact absurd hbp (lt_asymm h2)
      rw [if_neg h, if_neg hcond]
      exact ih best (fun q hq => hb q (List.mem_cons_of_mem p hq)) hps

theorem idxmax_eq_specSelect {κ : Type} [DecidableEq κ] [LinearOrder κ]
    (t : List (κ × Nat)) (ht : t.Pairwise fun a b => a.1 < b.1) :
    idxmax t = specSelect t := by
  cases t with
  | nil => rfl
  | cons x xs =>
    rw [idxmax, specSelect]
    rcases List.pairwise_cons.mp ht with ⟨hx, hxs⟩
    exact congrArg some (idxmaxGo_eq_specSelectGo x xs hx hxs)

theorem review_scores_pairwise (records : List OrderLineRecord) :
    (review_scores records).Pairwise fun a b => a.1 < b.1 :=
  keyTable_pairwise_lt _ _

theorem bystate_df_pairwise (records : List OrderLineRecord) :
    (bystate_df records).Pairwise fun a b => a.1 < b.1 :=
  keyTable_pairwise_lt _ _

theorem customer_sums_map_snd (records : List OrderLineRecord) :
    ((customer_sums records).map (·.2)).sum =
      (((records.map (·.customer_unique_id)).dedup).map fun c =>
        (customerPayments records c).sum).sum := by
  unfold customer_sums keyTable
  rw [List.map_map]
  exact List.Perm.sum_eq
    ((sortedKeys_perm (records.map (·.customer_unique_id))).map _)

theorem customer_sums_length (records : List OrderLineRecord) :
    (customer_sums records).length =
      ((records.map (·.customer_unique_id)).dedup).length := by
  unfold customer_sums keyTable
  rw [List.length_map]
  exact (sortedKeys_perm (records.map (·.customer_unique_id))).length_eq

/-- C2: on a nonempty filtered set, the average spending per customer is
the arithmetic mean over the distinct `customer_unique_id` values of the
per-customer `payment_value` sums (not the line-item mean). -/
theorem average_spending_eq_mean_of_customer_sums
    (records : List OrderLineRecord) (h : records ≠ []) :
    average_spending records = some (meanOfPerCustomerSums records) := by
  cases records with
  | nil => exact absurd rfl h
  | cons r rs =>
    show some _ = some _
    rw [customer_sums_map_snd, customer_sums_length]
    rfl

/-- Witness for C2, on the spec's example: the average spend per
customer is `(40 + 20) / 2 = 30`, not the line-item mean
`(10 + 30 + 20) / 3 = 20`. -/
theorem average_spending_witness :
    average_spending spendExample = some 30 ∧
    lineItemMean spendExample = 20 := by
  constructor
  · rw [average_spending_eq_mean_of_customer_sums spendExample
      (by unfold spendExample; exact List.cons_ne_nil _ _)]
    have hd : ((["A", "A", "B"] : List String)).dedup = ["A", "B"] := by
      decide
    unfold meanOfPerCustomerSums customerPayments spendExample mkSpendRecord
    simp only [List.map_cons, List.map_nil]
    rw [hd]
    have e1 : (decide (("A" : String) = "A")) = true := by decide
    have e2 : (decide (("B" : String) = "A")) = false := by decide
    have e3 : (decide (("A" : String) = "B")) = false := by decide
    have e4 : (decide (("B" : String) = "B")) = true := by decide
    norm_num [List.filter, e1, e2, e3, e4]
  · norm_num [lineItemMean, spendExample, mkSpendRecord]

/-- State `"RJ"` precedes `"SP"` alphabetically. -/
theorem rj_lt_sp : ("RJ" : String) < "SP" := by
  rw [String.lt_iff_toList_lt]
  exact List.Lex.rel (by decide)

theorem not_sp_le_rj : ¬ ("SP" : String) ≤ "RJ" := not_le.mpr rj_lt_sp

theorem bystate_df_tieExample :
    bystate_df tieExample = [("RJ", 5), ("SP", 5)] := by
  have hd : (tieExample.map (·.customer_state)).dedup = ["SP", "RJ"] := by
    decide
  have h1 : sortedKeys (tieExample.map (·.customer_state)) = ["RJ", "SP"] := by
    unfold sortedKeys
    rw [hd]
    simp only [List.insertionSort, List.orderedInsert]
    rw [if_neg not_sp_le_rj]
  unfold bystate_df keyTable
  rw [h1]
  decide

/-- C5: each "most common" scalar — the three returned by the helper and
the two the dashboard recomputes with `idxmax` — is the key that appears
first when the table's rows are ordered by (descending metric, ascending
key); the selection is a function of the table, and on the tied state
counts `{SP: 5, RJ: 5}` it yields `RJ`, the ascending-first tied key. -/
theorem most_common_deterministic (records : List OrderLineRecord) :
    (review_score_df records).2 = specSelect (review_scores records) ∧
    (create_bystate_df records).2 = specSelect (bystate_df records) ∧
    (create_order_status records).2 = specSelect (order_status_df records) ∧
    most_common_review_score records = specSelect (review_scores records) ∧
    most_common_state_demographic records = specSelect (bystate_df records) ∧
    bystate_df tieExample = [("RJ", 5), ("SP", 5)] ∧
    most_common_state_demographic tieExample = some "RJ" := by
  refine ⟨rfl, rfl, rfl,
    idxmax_eq_specSelect _ (review_scores_pairwise records),
    idxmax_eq_specSelect _ (bystate_df_pairwise records),
    bystate_df_tieExample, ?_⟩
  show idxmax (bystate_df tieExample) = some "RJ"
  rw [bystate_df_tieExample]
  rfl

/-- C6: the two code paths that produce a "most common" value for the
same aggregation — the scalar returned by the helper and the value the
dashboard recomputes from the distribution table with `idxmax`
(sub_dashboard.py lines 165 and 194) — agree on every filtered set. -/
theorem most_common_surfaces_agree (records : List OrderLineRecord) :
    most_common_review_score records = (review_score_df records).2 ∧
    most_common_state_demographic records = (create_bystate_df records).2 :=
  ⟨idxmax_eq_specSelect _ (review_scores_pairwise records),
   idxmax_eq_specSelect _ (bystate_df_pairwise records)⟩

/-- Characterisation of the three bins of `priceCut`: left-open,
right-closed. -/
theorem priceCut_spec (m p : Rat) :
    (priceCut m p = some PriceCategory.Cheap ↔ 0 < p ∧ p ≤ 50) ∧
    (priceCut m p = some PriceCategory.Mid ↔ 50 < p ∧ p ≤ 100) ∧
    (priceCut m p = some PriceCategory.Expensive ↔ 100 < p ∧ p ≤ m) := by
  by_cases h1 : 0 < p ∧ p ≤ 50
  · unfold priceCut
    rw [if_pos h1]
    refine ⟨by simp [h1], ?_, ?_⟩
    · constructor
      · intro h; simp at h
      · rintro ⟨h4, h5⟩; exfalso; linarith [h1.2]
    · constructor
      · intro h; simp at h
      · rintro ⟨h4, h5⟩; exfalso; linarith [h1.2]
  · by_cases h2 : 50 < p ∧ p ≤ 100
    · unfold priceCut
      rw [if_neg h1, if_pos h2]
      refine ⟨?_, by simp [h2], ?_⟩
      · constructor
        · intro h; simp at h
        · rintro ⟨h4, h5⟩; exfalso; linarith [h2.1]
      · constructor
        · intro h; simp at h
        · rintro ⟨h4, h5⟩; exfalso; linarith [h2.2]
    · by_cases h3 : 100 < p ∧ p ≤ m
      · unfold priceCut
        rw [if_neg h1, if_neg h2, if_pos h3]
        refine ⟨?_, ?_, by simp [h3]⟩
        · constructor
          · intro h; simp at h
          · rintro ⟨h4, h5⟩; exfalso; linarith [h3.1]
        · constructor
          · intro h; simp at h
          · rintro ⟨h4, h5⟩; exfalso; linarith [h3.1]
      · unfold priceCut
        rw [if_neg h1, if_neg h2, if_neg h3]
        refine ⟨?_, ?_, ?_⟩ <;> constructor <;> intro h
        · simp at h
        · exact absurd h h1
        · simp at h
        · exact absurd h h2
        · simp at h
        · exact absurd h h3

/-- Counterexample to C3 as stated: at `priceExample` the cut succeeds
(max price 200 makes the edges valid), and the bins are not the
half-open intervals `[0, 50)`, `[50, 100)`, `[100, max]` — `pd.cut`
closes them on the right.  The produced column labels 50.00 cheap (the
claim says mid) and 100.00 mid (the claim says expensive), so it is not
the column the claim asserts. -/
theorem price_category_boundary_counterexample :
    maxPrice priceExample = some 200 ∧
    cut_prices priceExample =
      some [some PriceCategory.Cheap, some PriceCategory.Mid,
        some PriceCategory.Expensive] ∧
    ¬ cut_prices priceExample =
      some [some PriceCategory.Mid, some PriceCategory.Expensive,
        some PriceCategory.Expensive] := by
  decide

/-- C3 amended: when some present price exceeds 100 the cut succeeds
and bins `price` into the left-open right-closed intervals `(0, 50]`
(cheap), `(50, 100]` (mid), `(100, max(price)]` (expensive), with
`max(price)` taken over the current filtered set — so 49.99 and 50.00
are both cheap and 100.00 is mid — and a record with an absent price
receives no label and lies in no bucket of the price-category
aggregate; when no present price exceeds 100, or no price is present at
all, the bin edges `[0, 50, 100, max]` do not increase strictly and the
`pd.cut` call raises instead of labelling anything. -/
theorem price_category_bins (records : List OrderLineRecord)
    (r : OrderLineRecord) :
    ((∀ m, maxPrice records = some m → ¬ 100 < m →
        cut_prices records = none) ∧
      (maxPrice records = none → cut_prices records = none)) ∧
    ∀ m, maxPrice records = some m → 100 < m →
      cut_prices records = some (records.map (priceLabel m)) ∧
      (∀ p, r.price = some p →
        (priceLabel m r = some PriceCategory.Cheap ↔ 0 < p ∧ p ≤ 50) ∧
        (priceLabel m r = some PriceCategory.Mid ↔ 50 < p ∧ p ≤ 100) ∧
        (priceLabel m r = some PriceCategory.Expensive ↔
          100 < p ∧ p ≤ m)) ∧
      (r.price = none → priceLabel m r = none ∧
        ∀ c, r ∉ profitBucket m records c) := by
  refine ⟨⟨?_, ?_⟩, ?_⟩
  · intro m hm h100
    simp only [cut_prices, hm]
    rw [if_neg h100]
  · intro hm
    simp only [cut_prices, hm]
  · intro m hm h100
    refine ⟨?_, ?_, ?_⟩
    · simp only [cut_prices, hm]
      rw [if_pos h100]
    · intro p hp
      have hl : priceLabel m r = priceCut m p := by
        unfold priceLabel
        rw [hp]
      rw [hl]
      exact priceCut_spec m p
    · intro hnone
      have hl : priceLabel m r = none := by
        unfold priceLabel
        rw [hnone]
      refine ⟨hl, fun c hc => ?_⟩
      rcases List.mem_filter.mp hc with ⟨-, hdec⟩
      rw [hl] at hdec
      simp at hdec

/-- Witness for C3 amended, both regimes: on `priceWitnessExample`
(prices 49.99 and 200) the bins are valid and 49.99 is labelled cheap;
on `lowPriceExample` (prices 30 and 80, every present price at most
100) the cut raises. -/
theorem price_category_bins_witness :
    priceLabel 200 (mkPriceRecord "w" p4999) = some PriceCategory.Cheap ∧
    cut_prices lowPriceExample = none := by
  constructor
  · exact (((price_category_bins priceWitnessExample
        (mkPriceRecord "w" p4999)).2 200 (by decide) (by decide)).2.1
      p4999 rfl).1.mpr (by decide)
  · exact (price_category_bins lowPriceExample
      (mkPriceRecord "q1" 30)).1.1 80 (by decide) (by decide)

/-- Counterexample to C8 as stated: at `mutationState` the cut succeeds
(max price 200), and after the price-category enrichment the shared
filtered record set differs from what it was before the operation — the
column is written in place, not onto a copy. -/
theorem priceCategoryStep_mutates_filtered :
    ¬ Option.map PipelineState.filtered_df
        (priceCategoryStep mutationState) =
      some mutationState.filtered_df := by
  decide

/-- C8 amended: the aggregations are pure functions of their input and
no step mutates the canonical source record set; the price-category
enrichment, however, when its `pd.cut` succeeds, mutates the shared
filtered record set in place — though the mutation only fills the
derived `price_category` column, leaving every original column
unchanged.  (When `pd.cut` raises, the exception propagates and nothing
is written.) -/
theorem priceCategoryStep_frame (st : PipelineState) :
    ∀ st2, priceCategoryStep st = some st2 →
      st2.all_df = st.all_df ∧
      st2.filtered_df.map stripPriceCategory =
        st.filtered_df.map stripPriceCategory := by
  intro st2 hstep
  unfold priceCategoryStep at hstep
  cases hmax : cut_prices st.filtered_df with
  | none => rw [hmax] at hstep; cases hstep
  | some labels =>
    rw [hmax] at hstep
    have hlabels : labels = st.filtered_df.map
        (priceLabel ((maxPrice st.filtered_df).getD 0)) := by
      cases hm2 : maxPrice st.filtered_df with
      | none =>
        simp only [cut_prices, hm2] at hmax
        cases hmax
      | some m =>
        simp only [cut_prices, hm2] at hmax
        by_cases h100 : 100 < m
        · rw [if_pos h100] at hmax
          cases hmax
          rfl
        · rw [if_neg h100] at hmax; cases hmax
    cases hstep
    refine ⟨rfl, ?_⟩
    rw [hlabels, List.zipWith_map_right, List.zipWith_same, List.map_map]
    rfl

/-- Witness for C8 amended: at `mutationState` the step succeeds and the
frame property holds of its output. -/
theorem priceCategoryStep_frame_witness :
    ((priceCategoryStep mutationState).getD mutationState).all_df =
      mutationState.all_df ∧
    ((priceCategoryStep mutationState).getD
        mutationState).filtered_df.map stripPriceCategory =
      mutationState.filtered_df.map stripPriceCategory :=
  priceCategoryStep_frame mutationState _ (by decide)

/-- Category `"a"` precedes `"b"` alphabetically. -/
theorem a_le_b : ("a" : String) ≤ "b" :=
  le_of_lt (by
    rw [String.lt_iff_toList_lt]
    exact List.Lex.rel (by decide))

theorem order_item_counts_soldTieExample :
    order_item_counts soldTieExample = [("a", 1), ("b", 1)] := by
  have hd : (soldTieExample.filterMap
      (·.product_category_name_english)).dedup = ["a", "b"] := by
    decide
  unfold order_item_counts countBy keyTable sortedKeys
  rw [hd]
  simp only [List.insertionSort, List.orderedInsert]
  rw [if_pos a_le_b]
  decide

theorem create_sum_order_items_soldTieExample :
    create_sum_order_items_df soldTieExample = [("a", 1), ("b", 1)] := by
  unfold create_sum_order_items_df
  rw [order_item_counts_soldTieExample]
  decide

/-- Counterexample to C9 as stated: on `soldTieExample` the count table
has the tied rows `[(a, 1), (b, 1)]`; the unstable ascending sort of
sub_dashboard.py line 141 admits the reversed tie order, so
`[(b, 1), (a, 1)]` is an admissible fewest-sold view, and it differs
from the table sorted ascending with ties in the original grouping-key
order, which the claim asserts the view always equals. -/
theorem fewest_sold_tie_counterexample :
    IsFewestSoldView soldTieExample [("b", 1), ("a", 1)] ∧
    ¬ [("b", 1), ("a", 1)] =
      (sortAscByCount (order_item_counts soldTieExample)).take 5 := by
  constructor
  · refine ⟨[("b", 1), ("a", 1)], ⟨?_, by decide⟩, rfl⟩
    rw [create_sum_order_items_soldTieExample]
    decide
  · rw [order_item_counts_soldTieExample]
    decide

/-- C9 amended: both views derive from the one order-item count table.
"Most sold" is that table stably sorted by count descending (the
spec-modelled helper order, ties in grouping-key order) truncated to
its first 5 rows.  Every admissible "fewest sold" view is the first 5
rows of some count-ascending permutation of the same count table, and
the stable ascending order — ties in the count table's grouping-key
order — is one admissible view; but the program's `sort_values` uses an
unstable quicksort, so that tie order is admissible, not guaranteed. -/
theorem sold_views_from_count_table (records : List OrderLineRecord) :
    most_sold_view records =
      (sortDescByCount (order_item_counts records)).take 5 ∧
    (∀ v, IsFewestSoldView records v →
      ∃ out, List.Perm out (order_item_counts records) ∧
        (out.Pairwise fun a b => a.2 ≤ b.2) ∧ v = List.take 5 out) ∧
    IsFewestSoldView records
      ((sortAscByCount (order_item_counts records)).take 5) := by
  refine ⟨rfl, ?_, ?_⟩
  · rintro v ⟨out, ⟨hperm, hsort⟩, rfl⟩
    exact ⟨out,
      hperm.trans (List.perm_insertionSort _ (order_item_counts records)),
      hsort, rfl⟩
  · refine ⟨sortAscByCount (order_item_counts records), ⟨?_, ?_⟩, rfl⟩
    · exact (List.perm_insertionSort _ _).trans
        (List.perm_insertionSort _ (order_item_counts records)).symm
    · exact List.sorted_insertionSort _ _

/-- Witness for C9 amended: on `soldTieExample`, the stable ascending
truncation is an admissible view, and it is the truncation of a
count-ascending permutation of the count table. -/
theorem sold_views_from_count_table_witness :
    ∃ out, List.Perm out (order_item_counts soldTieExample) ∧
      (out.Pairwise fun a b : String × Nat => a.2 ≤ b.2) ∧
      (sortAscByCount (order_item_counts soldTieExample)).take 5 =
        List.take 5 out :=
  (sold_views_from_count_table soldTieExample).2.1 _
    (sold_views_from_count_table soldTieExample).2.2

/-- C4: on the empty filtered set every one of the six aggregations
returns an empty table and every helper "most common" scalar is the
absent sentinel — but the two values the dashboard recomputes with
`Series.idxmax` (sub_dashboard.py lines 165 and 194) hit the raising
case: their `none` embeds the `ValueError` pandas raises when `idxmax`
is applied to an empty series, contradicting the claim that no
most-common computation raises. -/
theorem empty_input_aggregations :
    create_daily_orders_df [] = [] ∧
    create_sum_spend_df [] = [] ∧
    create_sum_order_items_df [] = [] ∧
    review_scores [] = [] ∧
    bystate_df [] = [] ∧
    order_status_df [] = [] ∧
    (review_score_df []).2 = none ∧
    (create_bystate_df []).2 = none ∧
    (create_order_status []).2 = none ∧
    most_common_review_score [] = none ∧
    most_common_state_demographic [] = none :=
  ⟨rfl, rfl, rfl, rfl, rfl, rfl, rfl, rfl, rfl, rfl, rfl⟩

theorem lookup_map_of_mem {β : Type} (l : List Nat) (f : Nat → β) (z : Nat)
    (hz : z ∈ l) :
    List.lookup z (l.map fun k => (k, f k)) = some (f z) := by
  induction l with
  | nil => cases hz
  | cons a as ih =>
    rw [List.map_cons, List.lookup_cons]
    by_cases h : z = a
    · subst h
      simp
    · have hb : (z == a) = false := beq_false_of_ne h
      rw [hb]
      exact ih (by
        rcases List.mem_cons.mp hz with h1 | h1
        · exact absurd h1 h
        · exact h1)

/-- C10: the resolver maps each `zip_code_prefix` occurring in the
geolocation table to a single representative point (the key column of
the result has no duplicates) whose latitude and longitude are the
arithmetic means of all samples sharing that prefix. -/
theorem BrazilMapping_centroid (pts : List GeoPoint) (z : Nat)
    (hz : z ∈ pts.map (·.zip_code)) :
    ((BrazilMapping pts).map (·.1)).Nodup ∧
    List.lookup z (BrazilMapping pts) =
      some ((prefixLats pts z).sum / ((prefixLats pts z).length : Rat),
            (prefixLons pts z).sum / ((prefixLons pts z).length : Rat)) := by
  constructor
  · unfold BrazilMapping
    rw [List.map_map]
    have h : ((fun x : Nat × Rat × Rat => x.1) ∘ fun z =>
        (z, (prefixLats pts z).sum / ((prefixLats pts z).length : Rat),
            (prefixLons pts z).sum / ((prefixLons pts z).length : Rat))) =
        fun z : Nat => z := rfl
    rw [h]
    simpa using List.nodup_dedup (pts.map (·.zip_code))
  · exact lookup_map_of_mem _ _ z (List.mem_dedup.mpr hz)

/-- Witness for C10: the resolved latitude of prefix 01310 is the mean
of the three sample latitudes, -23.55. -/
theorem BrazilMapping_centroid_witness :
    List.lookup 1310 (BrazilMapping geoExample) =
      some (-2355/100, -4665/100) := by
  rw [(BrazilMapping_centroid geoExample 1310 (by decide)).2]
  norm_num [prefixLats, prefixLons, geoExample, List.filter]

/-- Witness for C7: with `start = 5 > 3 = end` the filter of a nonempty
dataset is empty. -/
theorem filtered_df_degenerate_range_witness :
    filtered_df oneRowExample 5 3 = [] :=
  filtered_df_degenerate_range oneRowExample 5 3 (Or.inl (by decide))

end Dashboard
